import Mathlib

/-!
# Verification of the rescale-calibration engine of `nequip/scripts/train.py`

This file gives a shallow embedding of the calibration portion of
`fresh_start` in `src/nequip/scripts/train.py` (lines 144-296) together with
its helpers `set_value`, `get_per_species` and `pop_per_species`, and proves
properties of the embedding.

Modelling conventions:
* Python values appearing in the four scale/shift slots are `None`, `float`,
  `torch.Tensor` or `str`; these are embedded as the inductive type `Value`
  (floats and tensor entries are modelled by rationals, the standard exact
  model for the numeric claims at hand).
* A Python `dict` is embedded as an association list in insertion order
  (Python dicts preserve insertion order); `config.get(k, d)` with a possibly
  absent key is an `Option` field plus `Option.getD`.
* Python `variable == key` with `key` a string is string equality when
  `variable` is a string and `False` otherwise (`None`, `float` and tensors
  never compare equal to the string keys of the statistics mapping).
* Exceptions (`ValueError`, `NotImplementedError`, `TypeError`) are embedded
  as `Except CalErr`.
* The dataset's `statistics` method is an external collaborator; it is
  embedded as a structure `Dataset` holding the aggregate each statistics
  pass would return.  `calibrate` returns, next to its result, the list of
  statistics passes it performed, in order, so that "computed before/at most
  once/never" claims are statable.
-/

set_option autoImplicit false

namespace NequipTrain

/-- A Python value that can appear in one of the four scale/shift slots:
`None`, a `float`, a `torch.Tensor` (modelled as its list of entries), or a
`str`. -/
inductive Value where
  | pyNone : Value
  | float (q : ℚ) : Value
  | tensor (xs : List ℚ) : Value
  | str (s : String) : Value
deriving DecidableEq, Repr

/-- The errors raised by the calibration code: the mutual-exclusion
`ValueError` of line 168, the `NotImplementedError` of line 149, the
force-rms-without-force-training `ValueError` of line 178, the two
degenerate-scale `ValueError`s of lines 229 and 250, the unresolvable-value
`ValueError` of line 351 (carrying the `variable_name` role), and a `TypeError`
for operations such as `torch.min` on a non-tensor. -/
inductive CalErr where
  | conflict : CalErr
  | notImplementedLoss : CalErr
  | forceRmsWithoutForce : CalErr
  | degenerateGlobalScale (q : ℚ) : CalErr
  | degenerateSpeciesScale (q : ℚ) : CalErr
  | invalidValue (variable_name : String) : CalErr
  | typeError : CalErr
deriving DecidableEq, Repr

/-- Python `s.startswith(p)`, via the underlying character lists. -/
def pyStartsWith (s p : String) : Bool :=
  decide (p.data <+: s.data)

/-- Python `s[n:]`, via the underlying character lists. -/
def pyDrop (s : String) (n : Nat) : String :=
  ⟨s.data.drop n⟩

/-- Python `variable == key` for a slot value against a string dictionary
key: string equality when the value is a string, `False` otherwise. -/
def valueMatchesKey (var : Value) (key : String) : Bool :=
  match var with
  | Value.str s => s == key
  | _ => false

/-- Embedding of `set_value` (train.py lines 341-351): scan the statistics
mapping in order and return the stored value whose key equals `variable`;
otherwise pass `None` / floats / tensors through unchanged; otherwise raise
`ValueError` naming the role. -/
def set_value (var : Value) (variable_name : String)
    (value_dict : List (String × Value)) : Except CalErr Value :=
  match value_dict.find? (fun kv => valueMatchesKey var kv.1) with
  | some kv => Except.ok kv.2
  | Option.none =>
    match var with
    | Value.str _ => Except.error (CalErr.invalidValue variable_name)
    | v => Except.ok v

/-- The configuration keys consumed by the calibration engine.  A field is
`Option.none` when the key is absent from the configuration and
`some v` when present with value `v` (so an explicit null is
`some Value.pyNone`).  `loss_coeffs` is stored already coerced to a list of
field names (line 146 wraps a lone string into a list). -/
structure Config where
  loss_coeffs : List String
  global_rescale_shift : Option Value := Option.none
  global_rescale_scale : Option Value := Option.none
  PerSpeciesScaleShift_enable : Option Bool := Option.none
  per_species_scale_shift_enable : Option Bool := Option.none
  PerSpeciesScaleShift_scales : Option Value := Option.none
  per_species_scale_shift_scales : Option Value := Option.none
  PerSpeciesScaleShift_shifts : Option Value := Option.none
  per_species_scale_shift_shifts : Option Value := Option.none
  PerSpeciesScaleShift_sigma : Option Value := Option.none
  per_species_scale_shift_sigma : Option Value := Option.none
deriving Repr

/-- Embedding of `get_per_species(config, "enable", False)` (lines 334-338):
the `PerSpeciesScaleShift_` spelling wins over the
`per_species_scale_shift_` spelling, defaulting to `False`. -/
def perSpeciesEnabled (c : Config) : Bool :=
  c.PerSpeciesScaleShift_enable.getD (c.per_species_scale_shift_enable.getD false)

/-- Embedding of `pop_per_species(config, "scales", None)` (lines 327-331),
same dual-key precedence, defaulting to `None`.  (The `pop` also removes the
keys from the configuration; only the returned value matters here.) -/
def perSpeciesScalesOf (c : Config) : Value :=
  c.PerSpeciesScaleShift_scales.getD (c.per_species_scale_shift_scales.getD Value.pyNone)

/-- Embedding of `pop_per_species(config, "shifts", None)`. -/
def perSpeciesShiftsOf (c : Config) : Value :=
  c.PerSpeciesScaleShift_shifts.getD (c.per_species_scale_shift_shifts.getD Value.pyNone)

/-- Embedding of `pop_per_species(config, "sigma", None)` (line 166; the
value is only threaded to the per-species statistics call). -/
def perSpeciesSigmaOf (c : Config) : Value :=
  c.PerSpeciesScaleShift_sigma.getD (c.per_species_scale_shift_sigma.getD Value.pyNone)

/-- Line 158: `config.get("global_rescale_shift", "dataset_energy_mean")`. -/
def globalShiftOf (c : Config) : Value :=
  c.global_rescale_shift.getD (Value.str "dataset_energy_mean")

/-- Lines 159-162: `config.get("global_rescale_scale", "dataset_force_rms"
if force_training else "dataset_energy_std")`. -/
def globalScaleOf (c : Config) (force_training : Bool) : Value :=
  c.global_rescale_scale.getD
    (Value.str (if force_training then "dataset_force_rms" else "dataset_energy_std"))

/-- Line 148: `train_on.issubset({"forces", "total_energy"})`. -/
def lossOk (c : Config) : Bool :=
  c.loss_coeffs.all (fun f => f == "forces" || f == "total_energy")

/-- Lines 172-176, applied to one slot: the slot is treated as a statistic
placeholder when it is a string satisfying `startswith("dataset")`, and the
required statistic name is `variable[len("dataset_"):]`, i.e. the string
with its first 8 characters removed. -/
def placeholderKey (v : Value) : Option String :=
  match v with
  | Value.str s => if pyStartsWith s "dataset" then some (pyDrop s 8) else Option.none
  | _ => Option.none

/-- Whether a slot value is treated as a statistic placeholder by the scan
of lines 173-175. -/
def isPlaceholder (v : Value) : Bool :=
  (placeholderKey v).isSome

/-- Lines 172-176: collect the required statistic names from the four slots
(in the order global shift, global scale, per-species scales, per-species
shifts) and deduplicate (`keys = list(set(keys))`; only membership in the
result is used downstream). -/
def requiredKeys (gshift gscale scales shifts : Value) : List String :=
  ((placeholderKey gshift).toList ++ (placeholderKey gscale).toList ++
    (placeholderKey scales).toList ++ (placeholderKey shifts).toList).dedup

/-- The aggregates an external dataset would report for each statistics
pass (`trainer.dataset_train.statistics(...)`): the force RMS, the
total-energy mean and std, and the per-species energy mean and std. -/
structure Dataset where
  force_rms : Value
  energy_mean : Value
  energy_std : Value
  per_species_energy_mean : Value
  per_species_energy_std : Value

/-- Names for the three statistics passes of lines 184-209, used in the
pass log returned by `calibrate`. -/
def forceRmsPass : String := "force_rms"

/-- The single pass of lines 191-198 computing both energy mean and std. -/
def energyMeanStdPass : String := "energy_mean_std"

/-- The single pass of lines 199-209 computing both per-species mean and std. -/
def perSpeciesMeanStdPass : String := "per_species_energy_mean_std"

/-- Lines 184-209: which statistics passes run, in program order, as a
function of the required statistic names. -/
def statsPasses (keys : List String) : List String :=
  (if "force_rms" ∈ keys then [forceRmsPass] else []) ++
  (if "energy_std" ∈ keys ∨ "energy_mean" ∈ keys then [energyMeanStdPass] else []) ++
  (if "per_species_energy_std" ∈ keys ∨ "per_species_energy_mean" ∈ keys then
    [perSpeciesMeanStdPass] else [])

/-- Lines 183-209: the `dataset_statistics` mapping built by the passes, in
insertion order, keyed by the `dataset_<name>` strings. -/
def datasetStatistics (keys : List String) (d : Dataset) : List (String × Value) :=
  (if "force_rms" ∈ keys then [("dataset_force_rms", d.force_rms)] else []) ++
  (if "energy_std" ∈ keys ∨ "energy_mean" ∈ keys then
    [("dataset_energy_mean", d.energy_mean), ("dataset_energy_std", d.energy_std)] else []) ++
  (if "per_species_energy_std" ∈ keys ∨ "per_species_energy_mean" ∈ keys then
    [("dataset_per_species_energy_mean", d.per_species_energy_mean),
     ("dataset_per_species_energy_std", d.per_species_energy_std)] else [])

/-- Line 227: `RESCALE_THRESHOLD = 1e-6`. -/
def RESCALE_THRESHOLD : ℚ := 1 / 1000000

/-- Lines 228-231: after resolution, a global scale that is a float strictly
below the threshold raises the degenerate-scale `ValueError` reporting the
value; any other value passes. -/
def checkGlobalScale (v : Value) : Except CalErr Value :=
  match v with
  | Value.float q =>
    if q < RESCALE_THRESHOLD then Except.error (CalErr.degenerateGlobalScale q)
    else Except.ok v
  | _ => Except.ok v

/-- `torch.min` on a value: the least entry of a nonempty tensor; a
`TypeError` on anything else (including Python floats and `None`; `torch.min`
of an empty tensor also raises). -/
def torchMin (v : Value) : Except CalErr ℚ :=
  match v with
  | Value.tensor (x :: xs) => Except.ok (xs.foldl min x)
  | _ => Except.error CalErr.typeError

/-- Elementwise division of a resolved scale/shift value by the global
scale `gs` (`scales / gs` of lines 254-255), with torch broadcasting between
tensors and floats; anything else is a `TypeError`. -/
def valueDiv (v gs : Value) : Except CalErr Value :=
  match v, gs with
  | Value.float a, Value.float b => Except.ok (Value.float (a / b))
  | Value.tensor xs, Value.float b => Except.ok (Value.tensor (xs.map (fun x => x / b)))
  | Value.float a, Value.tensor ys => Except.ok (Value.tensor (ys.map (fun y => a / y)))
  | Value.tensor xs, Value.tensor ys =>
    if xs.length = ys.length then
      Except.ok (Value.tensor (List.zipWith (fun a b => a / b) xs ys))
    else Except.error CalErr.typeError
  | _, _ => Except.error CalErr.typeError

/-- Lines 249-253: `if scales is not None and torch.min(scales) <
RESCALE_THRESHOLD: raise ValueError(...)` — the threshold check on the
minimum entry of the resolved per-species scales, before any division. -/
def checkSpeciesScales (scales : Value) : Except CalErr Unit :=
  if scales = Value.pyNone then Except.ok () else
    match torchMin scales with
    | Except.error e => Except.error e
    | Except.ok m =>
      if m < RESCALE_THRESHOLD then Except.error (CalErr.degenerateSpeciesScale m)
      else Except.ok ()

/-- Lines 235-255, the per-species block: `gs = 1 if global_scale is None
else global_scale`; resolve `scales` and `shifts` through `set_value`; run
the threshold check of `checkSpeciesScales` on the resolved (undivided)
scales; finally store `scales / gs` and `shifts / gs` (each `None` kept as
`None`) under the derived configuration keys.  Any raise propagates. -/
def perSpeciesStep (rawScales rawShifts globalScaleResolved : Value)
    (dstats : List (String × Value)) : Except CalErr (Value × Value) :=
  let gs : Value :=
    if globalScaleResolved = Value.pyNone then Value.float 1 else globalScaleResolved
  match set_value rawScales "per_species_scales" dstats with
  | Except.error e => Except.error e
  | Except.ok scales =>
    match set_value rawShifts "per_species_shifts" dstats with
    | Except.error e => Except.error e
    | Except.ok shifts =>
      match checkSpeciesScales scales with
      | Except.error e => Except.error e
      | Except.ok _ =>
        match (if scales = Value.pyNone then Except.ok Value.pyNone
            else valueDiv scales gs) with
        | Except.error e => Except.error e
        | Except.ok storedScales =>
          match (if shifts = Value.pyNone then Except.ok Value.pyNone
              else valueDiv shifts gs) with
          | Except.error e => Except.error e
          | Except.ok storedShifts => Except.ok (storedScales, storedShifts)

/-- The resolved outcome of calibration: the resolved global shift and scale
handed to `RescaleOutput` (lines 284-286), and, when per-species
normalization is enabled, the pair written to
`config["PerSpeciesScaleShift_scales"]` / `config["PerSpeciesScaleShift_shifts"]`
(lines 254-255). -/
structure CalOutcome where
  global_shift : Value
  global_scale : Value
  perSpeciesKeys : Option (Value × Value)
deriving DecidableEq, Repr

/-- Lines 216-255: resolve the four slots through `set_value`, run the
global degenerate-scale check, and, when enabled, the per-species block. -/
def resolveAndValidate (gshift gscale scales shifts : Value) (pss : Bool)
    (dstats : List (String × Value)) : Except CalErr CalOutcome := do
  let rshift ← set_value gshift "global_shift" dstats
  let rscale0 ← set_value gscale "global_scale" dstats
  let rscale ← checkGlobalScale rscale0
  if pss then do
    let stored ← perSpeciesStep scales shifts rscale dstats
    return { global_shift := rshift, global_scale := rscale, perSpeciesKeys := some stored }
  else
    return { global_shift := rshift, global_scale := rscale, perSpeciesKeys := Option.none }

/-- Embedding of the calibration portion of `fresh_start` (lines 144-296):
the training-field check, the defaulted global shift/scale, the
mutual-exclusion check, the statistic-requirement scan, the
force-rms-without-force-training check, the statistics passes, value
resolution and validation.  The first component is the list of statistics
passes performed before the function returned or raised, in program order. -/
def calibrate (c : Config) (d : Dataset) : List String × Except CalErr CalOutcome :=
  if lossOk c then
    let force_training := c.loss_coeffs.contains "forces"
    let global_shift := globalShiftOf c
    let global_scale := globalScaleOf c force_training
    let scales := perSpeciesScalesOf c
    let shifts := perSpeciesShiftsOf c
    if global_shift ≠ Value.pyNone ∧ perSpeciesEnabled c = true then
      ([], Except.error CalErr.conflict)
    else
      let keys := requiredKeys global_shift global_scale scales shifts
      if "force_rms" ∈ keys ∧ force_training = false then
        ([], Except.error CalErr.forceRmsWithoutForce)
      else
        (statsPasses keys,
          resolveAndValidate global_shift global_scale scales shifts
            (perSpeciesEnabled c) (datasetStatistics keys d))
  else ([], Except.error CalErr.notImplementedLoss)

/-- `AtomicDataDict.TOTAL_ENERGY_KEY` (external constant from
`nequip.data`, not under `src/`; the exact string is irrelevant to the
claims, which only need the three keys distinct). -/
def TOTAL_ENERGY_KEY : String := "total_energy"

/-- `AtomicDataDict.FORCE_KEY` (external constant from `nequip.data`). -/
def FORCE_KEY : String := "forces"

/-- `AtomicDataDict.PER_ATOM_ENERGY_KEY` (external constant from
`nequip.data`). -/
def PER_ATOM_ENERGY_KEY : String := "atomic_energy"

/-- Lines 273-283: the `scale_keys` argument of `RescaleOutput`, as a
function of the core model's declared outputs `irreps_out`. -/
def scale_keys (irreps_out : List String) : List String :=
  [TOTAL_ENERGY_KEY] ++
  (if FORCE_KEY ∈ irreps_out then [FORCE_KEY] else []) ++
  (if PER_ATOM_ENERGY_KEY ∈ irreps_out then [PER_ATOM_ENERGY_KEY] else [])

/-- A concrete sample dataset used to instantiate theorems at closed inputs. -/
def dEx : Dataset :=
  { force_rms := Value.float (5/2)
    energy_mean := Value.float 3
    energy_std := Value.float 2
    per_species_energy_mean := Value.tensor [1, 2]
    per_species_energy_std := Value.tensor [4, 6] }

/- ### Helper lemmas -/

lemma valueMatchesKey_not_str {v : Value} (h : ∀ s, v ≠ Value.str s) (k : String) :
    valueMatchesKey v k = false := by
  cases v with
  | str s => exact absurd rfl (h s)
  | pyNone => rfl
  | float q => rfl
  | tensor xs => rfl

lemma set_value_not_str (v : Value) (n : String) (dict : List (String × Value))
    (h : ∀ s, v ≠ Value.str s) : set_value v n dict = Except.ok v := by
  have hfind : dict.find? (fun kv => valueMatchesKey v kv.1) = Option.none := by
    apply List.find?_eq_none.mpr
    intro kv _
    simp [valueMatchesKey_not_str h]
  cases v with
  | str s => exact absurd rfl (h s)
  | pyNone => simp [set_value, hfind]
  | float q => simp [set_value, hfind]
  | tensor xs => simp [set_value, hfind]

lemma except_ok_bind {α β : Type} (a : α) (f : α → Except CalErr β) :
    (Except.ok a >>= f) = f a := rfl

lemma except_error_bind {α β : Type} (e : CalErr) (f : α → Except CalErr β) :
    ((Except.error e : Except CalErr α) >>= f) = Except.error e := rfl

lemma statsPasses_passes_spec (ks : List String) :
    (statsPasses ks).Nodup ∧
    (forceRmsPass ∈ statsPasses ks ↔ "force_rms" ∈ ks) ∧
    (energyMeanStdPass ∈ statsPasses ks ↔ ("energy_std" ∈ ks ∨ "energy_mean" ∈ ks)) ∧
    (perSpeciesMeanStdPass ∈ statsPasses ks ↔
      ("per_species_energy_std" ∈ ks ∨ "per_species_energy_mean" ∈ ks)) := by
  by_cases h1 : "force_rms" ∈ ks <;>
    by_cases h2 : "energy_std" ∈ ks ∨ "energy_mean" ∈ ks <;>
      by_cases h3 : "per_species_energy_std" ∈ ks ∨ "per_species_energy_mean" ∈ ks <;>
        simp [statsPasses, forceRmsPass, energyMeanStdPass, perSpeciesMeanStdPass,
          h1, h2, h3]

lemma datasetStatistics_energy_mean (ks : List String) (d : Dataset) (n : String)
    (h : "energy_mean" ∈ ks) :
    set_value (Value.str "dataset_energy_mean") n (datasetStatistics ks d) =
      Except.ok d.energy_mean := by
  have h2 : "energy_std" ∈ ks ∨ "energy_mean" ∈ ks := Or.inr h
  by_cases h1 : "force_rms" ∈ ks <;>
    by_cases h3 : "per_species_energy_std" ∈ ks ∨ "per_species_energy_mean" ∈ ks <;>
      simp [datasetStatistics, set_value, valueMatchesKey, h1, h2, h3,
        List.find?]

lemma pyStartsWith_dataset_append (nm : String) :
    pyStartsWith ("dataset_" ++ nm) "dataset" = true := by
  have hd : ("dataset_" ++ nm).data = "dataset".data ++ ('_' :: nm.data) := rfl
  simp only [pyStartsWith, hd, decide_eq_true_eq]
  exact List.prefix_append _ _

lemma pyDrop_dataset_append (nm : String) : pyDrop ("dataset_" ++ nm) 8 = nm := rfl

/- ### Claims -/

/-- C1: for every configuration (with admissible training fields) whose
global shift is non-null and whose per-category (per-species) scale/shift is
enabled, calibration fails with the mutual-exclusion configuration error, and
it does so before any dataset statistics pass is performed (the pass log is
empty). -/
theorem conflict_error_before_stats (c : Config) (d : Dataset)
    (hl : lossOk c = true)
    (hs : globalShiftOf c ≠ Value.pyNone)
    (hp : perSpeciesEnabled c = true) :
    calibrate c d = ([], Except.error CalErr.conflict) := by
  simp [calibrate, hl, hs, hp]

/-- Witness for C1 at a concrete configuration: per-species normalization
enabled while the (defaulted) global shift is non-null. -/
theorem conflict_error_before_stats_witness :
    calibrate { loss_coeffs := ["total_energy"],
                PerSpeciesScaleShift_enable := some true } dEx =
      ([], Except.error CalErr.conflict) :=
  conflict_error_before_stats _ dEx (by decide) (by decide) (by decide)

/-- C10: if `loss_coeffs` names any training field besides `forces` and
`total_energy`, startup fails with the not-implemented error before any
rescale calibration or statistics computation (the pass log is empty and no
resolution outcome is produced). -/
theorem loss_fields_checked_first (c : Config) (d : Dataset)
    (h : lossOk c = false) :
    calibrate c d = ([], Except.error CalErr.notImplementedLoss) := by
  simp [calibrate, h]

/-- Witness for C10 at a concrete configuration training on `stress`. -/
theorem loss_fields_checked_first_witness :
    calibrate { loss_coeffs := ["stress", "total_energy"] } dEx =
      ([], Except.error CalErr.notImplementedLoss) :=
  loss_fields_checked_first _ dEx (by decide)

/-- C9: when `global_rescale_shift` is absent from the configuration the
global shift defaults to the placeholder string `dataset_energy_mean`;
consequently every configuration (with admissible training fields) that
enables per-category scale/shift without explicitly setting
`global_rescale_shift` to null fails with the mutual-exclusion conflict
error. -/
theorem default_shift_forces_conflict (c : Config) (d : Dataset)
    (hl : lossOk c = true)
    (hp : perSpeciesEnabled c = true)
    (hn : c.global_rescale_shift ≠ some Value.pyNone) :
    (c.global_rescale_shift = Option.none →
      globalShiftOf c = Value.str "dataset_energy_mean") ∧
    calibrate c d = ([], Except.error CalErr.conflict) := by
  constructor
  · intro habs
    simp [globalShiftOf, habs]
  · have hs : globalShiftOf c ≠ Value.pyNone := by
      unfold globalShiftOf
      cases hg : c.global_rescale_shift with
      | none => simp
      | some v =>
        simp only [Option.getD_some]
        intro hv
        exact hn (by rw [hg, hv])
    simp [calibrate, hl, hs, hp]

/-- Witness for C9 at a concrete configuration: `global_rescale_shift`
absent, per-species enabled. -/
theorem default_shift_forces_conflict_witness :
    (({ loss_coeffs := ["forces"],
         per_species_scale_shift_enable := some true } : Config).global_rescale_shift =
          Option.none →
      globalShiftOf { loss_coeffs := ["forces"],
                      per_species_scale_shift_enable := some true } =
          Value.str "dataset_energy_mean") ∧
    calibrate { loss_coeffs := ["forces"],
                per_species_scale_shift_enable := some true } dEx =
      ([], Except.error CalErr.conflict) :=
  default_shift_forces_conflict _ dEx (by decide) (by decide) (by decide)

/-- C7: if the required statistic names contain `force_rms` but
`loss_coeffs` does not include `forces` (no force-based supervision),
calibration fails with the dedicated validation error before any statistics
pass is performed (the pass log is empty). -/
theorem force_rms_requires_force_training (c : Config) (d : Dataset)
    (hl : lossOk c = true)
    (hf : c.loss_coeffs.contains "forces" = false)
    (hc : ¬ (globalShiftOf c ≠ Value.pyNone ∧ perSpeciesEnabled c = true))
    (hk : "force_rms" ∈ requiredKeys (globalShiftOf c) (globalScaleOf c false)
        (perSpeciesScalesOf c) (perSpeciesShiftsOf c)) :
    calibrate c d = ([], Except.error CalErr.forceRmsWithoutForce) := by
  have hmem : "forces" ∉ c.loss_coeffs := by simpa using hf
  simp [calibrate, hl, hc, hk, hmem]

/-- Witness for C7: a configuration requesting `dataset_force_rms` as the
global scale while training only on total energy. -/
theorem force_rms_requires_force_training_witness :
    calibrate { loss_coeffs := ["total_energy"],
                global_rescale_shift := some Value.pyNone,
                global_rescale_scale := some (Value.str "dataset_force_rms") } dEx =
      ([], Except.error CalErr.forceRmsWithoutForce) :=
  force_rms_requires_force_training _ dEx (by decide) (by decide) (by decide)
    (by decide)

/-- C2: after resolution, a global scale that is a concrete float strictly
below the threshold `1e-6` makes calibration fail with the degenerate-scale
error reporting the value (shown both for the check of lines 228-231 and
end-to-end through `calibrate`), while a resolved global scale of `1.0`
passes the check. -/
theorem degenerate_global_scale_threshold (q : ℚ) (h : q < RESCALE_THRESHOLD) :
    checkGlobalScale (Value.float q) = Except.error (CalErr.degenerateGlobalScale q) ∧
    checkGlobalScale (Value.float 1) = Except.ok (Value.float 1) ∧
    (calibrate { loss_coeffs := ["total_energy"],
                 global_rescale_shift := some Value.pyNone,
                 global_rescale_scale := some (Value.float q) } dEx).2 =
      Except.error (CalErr.degenerateGlobalScale q) ∧
    (calibrate { loss_coeffs := ["total_energy"],
                 global_rescale_shift := some Value.pyNone,
                 global_rescale_scale := some (Value.float 1) } dEx).2 =
      Except.ok { global_shift := Value.pyNone, global_scale := Value.float 1,
                  perSpeciesKeys := Option.none } := by
  have h1 : checkGlobalScale (Value.float q) =
      Except.error (CalErr.degenerateGlobalScale q) := by
    simp [checkGlobalScale, h]
  refine ⟨h1, by norm_num [checkGlobalScale, RESCALE_THRESHOLD], ?_, ?_⟩
  · simp [calibrate, lossOk, globalShiftOf, globalScaleOf, perSpeciesEnabled,
      perSpeciesScalesOf, perSpeciesShiftsOf, requiredKeys, placeholderKey,
      datasetStatistics, statsPasses, resolveAndValidate, set_value,
      valueMatchesKey, except_ok_bind, except_error_bind, h1]
  · norm_num [calibrate, lossOk, globalShiftOf, globalScaleOf, perSpeciesEnabled,
      perSpeciesScalesOf, perSpeciesShiftsOf, requiredKeys, placeholderKey,
      datasetStatistics, statsPasses, resolveAndValidate, set_value,
      valueMatchesKey, except_ok_bind, checkGlobalScale, RESCALE_THRESHOLD]

/-- Witness for C2 at the concrete resolved scale `5e-7 = 1/2000000`. -/
theorem degenerate_global_scale_threshold_witness :
    checkGlobalScale (Value.float (1 / 2000000)) =
      Except.error (CalErr.degenerateGlobalScale (1 / 2000000)) ∧
    checkGlobalScale (Value.float 1) = Except.ok (Value.float 1) ∧
    (calibrate { loss_coeffs := ["total_energy"],
                 global_rescale_shift := some Value.pyNone,
                 global_rescale_scale := some (Value.float (1 / 2000000)) } dEx).2 =
      Except.error (CalErr.degenerateGlobalScale (1 / 2000000)) ∧
    (calibrate { loss_coeffs := ["total_energy"],
                 global_rescale_shift := some Value.pyNone,
                 global_rescale_scale := some (Value.float 1) } dEx).2 =
      Except.ok { global_shift := Value.pyNone, global_scale := Value.float 1,
                  perSpeciesKeys := Option.none } :=
  degenerate_global_scale_threshold (1 / 2000000) (by norm_num [RESCALE_THRESHOLD])

/-- C3: resolving a slot value that is `None`, a float or a tensor (and, not
being a string, never equals any key of the statistics mapping) returns that
exact value unchanged, for every role name and every statistics mapping. -/
theorem set_value_passthrough (v : Value) (n : String) (dict : List (String × Value))
    (h : ∀ s, v ≠ Value.str s) :
    set_value v n dict = Except.ok v :=
  set_value_not_str v n dict h

/-- Witness for C3: a literal tensor passes through a nonempty statistics
mapping unchanged. -/
theorem set_value_passthrough_witness :
    set_value (Value.tensor [4, 6]) "per_species_scales"
      [("dataset_energy_mean", Value.float 3)] = Except.ok (Value.tensor [4, 6]) :=
  set_value_passthrough _ _ _ (fun _ h => Value.noConfusion h)

/-- C8: the assembled model's rescale target set always contains the
total-energy key, and contains the force key and the per-atom-energy key each
exactly when the core model's declared outputs `irreps_out` contain it. -/
theorem rescale_target_outputs (irreps_out : List String) :
    TOTAL_ENERGY_KEY ∈ scale_keys irreps_out ∧
    (FORCE_KEY ∈ scale_keys irreps_out ↔ FORCE_KEY ∈ irreps_out) ∧
    (PER_ATOM_ENERGY_KEY ∈ scale_keys irreps_out ↔ PER_ATOM_ENERGY_KEY ∈ irreps_out) := by
  by_cases h1 : FORCE_KEY ∈ irreps_out <;>
    by_cases h2 : PER_ATOM_ENERGY_KEY ∈ irreps_out <;>
      simp [scale_keys, h1, h2, TOTAL_ENERGY_KEY, FORCE_KEY, PER_ATOM_ENERGY_KEY]

/-- C4: for every configuration of the four slots, the statistics-pass log
contains each family at most once (it is duplicate-free) no matter how many
slots reference a family; a family's single pass runs exactly when one of
its statistic names is required by the four slots (so no pass runs for a
family referenced by none of them); and, whenever the placeholder
`dataset_energy_mean` is required, resolving it returns exactly the value
the pass stored under that key in the statistics mapping, identically for
any two requesting roles. -/
theorem stats_families_single_pass (gshift gscale scales shifts : Value)
    (d : Dataset) (n₁ n₂ : String) :
    (statsPasses (requiredKeys gshift gscale scales shifts)).Nodup ∧
    (forceRmsPass ∈ statsPasses (requiredKeys gshift gscale scales shifts) ↔
      "force_rms" ∈ requiredKeys gshift gscale scales shifts) ∧
    (energyMeanStdPass ∈ statsPasses (requiredKeys gshift gscale scales shifts) ↔
      ("energy_std" ∈ requiredKeys gshift gscale scales shifts ∨
        "energy_mean" ∈ requiredKeys gshift gscale scales shifts)) ∧
    (perSpeciesMeanStdPass ∈ statsPasses (requiredKeys gshift gscale scales shifts) ↔
      ("per_species_energy_std" ∈ requiredKeys gshift gscale scales shifts ∨
        "per_species_energy_mean" ∈ requiredKeys gshift gscale scales shifts)) ∧
    ("energy_mean" ∈ requiredKeys gshift gscale scales shifts →
      set_value (Value.str "dataset_energy_mean") n₁
          (datasetStatistics (requiredKeys gshift gscale scales shifts) d) =
        Except.ok d.energy_mean ∧
      set_value (Value.str "dataset_energy_mean") n₂
          (datasetStatistics (requiredKeys gshift gscale scales shifts) d) =
        Except.ok d.energy_mean) :=
  ⟨(statsPasses_passes_spec _).1, (statsPasses_passes_spec _).2.1,
    (statsPasses_passes_spec _).2.2.1, (statsPasses_passes_spec _).2.2.2,
    fun h => ⟨datasetStatistics_energy_mean _ d n₁ h,
      datasetStatistics_energy_mean _ d n₂ h⟩⟩

/-- Witness for C4: both the global shift and the global scale reference
`dataset_energy_mean`; the pass log holds a single energy pass and both
roles resolve to the stored mean (the inner requirement hypothesis is
discharged at this concrete input). -/
theorem stats_families_single_pass_witness :
    (statsPasses (requiredKeys (Value.str "dataset_energy_mean")
        (Value.str "dataset_energy_mean") Value.pyNone Value.pyNone)).Nodup ∧
    (forceRmsPass ∈ statsPasses (requiredKeys (Value.str "dataset_energy_mean")
        (Value.str "dataset_energy_mean") Value.pyNone Value.pyNone) ↔
      "force_rms" ∈ requiredKeys (Value.str "dataset_energy_mean")
        (Value.str "dataset_energy_mean") Value.pyNone Value.pyNone) ∧
    (energyMeanStdPass ∈ statsPasses (requiredKeys (Value.str "dataset_energy_mean")
        (Value.str "dataset_energy_mean") Value.pyNone Value.pyNone) ↔
      ("energy_std" ∈ requiredKeys (Value.str "dataset_energy_mean")
        (Value.str "dataset_energy_mean") Value.pyNone Value.pyNone ∨
        "energy_mean" ∈ requiredKeys (Value.str "dataset_energy_mean")
          (Value.str "dataset_energy_mean") Value.pyNone Value.pyNone)) ∧
    (perSpeciesMeanStdPass ∈ statsPasses (requiredKeys (Value.str "dataset_energy_mean")
        (Value.str "dataset_energy_mean") Value.pyNone Value.pyNone) ↔
      ("per_species_energy_std" ∈ requiredKeys (Value.str "dataset_energy_mean")
        (Value.str "dataset_energy_mean") Value.pyNone Value.pyNone ∨
        "per_species_energy_mean" ∈ requiredKeys (Value.str "dataset_energy_mean")
          (Value.str "dataset_energy_mean") Value.pyNone Value.pyNone)) ∧
    set_value (Value.str "dataset_energy_mean") "global_shift"
        (datasetStatistics (requiredKeys (Value.str "dataset_energy_mean")
          (Value.str "dataset_energy_mean") Value.pyNone Value.pyNone) dEx) =
      Except.ok dEx.energy_mean ∧
    set_value (Value.str "dataset_energy_mean") "global_scale"
        (datasetStatistics (requiredKeys (Value.str "dataset_energy_mean")
          (Value.str "dataset_energy_mean") Value.pyNone Value.pyNone) dEx) =
      Except.ok dEx.energy_mean :=
  ⟨(stats_families_single_pass (Value.str "dataset_energy_mean")
      (Value.str "dataset_energy_mean") Value.pyNone Value.pyNone dEx
      "global_shift" "global_scale").1,
    (stats_families_single_pass (Value.str "dataset_energy_mean")
      (Value.str "dataset_energy_mean") Value.pyNone Value.pyNone dEx
      "global_shift" "global_scale").2.1,
    (stats_families_single_pass (Value.str "dataset_energy_mean")
      (Value.str "dataset_energy_mean") Value.pyNone Value.pyNone dEx
      "global_shift" "global_scale").2.2.1,
    (stats_families_single_pass (Value.str "dataset_energy_mean")
      (Value.str "dataset_energy_mean") Value.pyNone Value.pyNone dEx
      "global_shift" "global_scale").2.2.2.1,
    (stats_families_single_pass (Value.str "dataset_energy_mean")
      (Value.str "dataset_energy_mean") Value.pyNone Value.pyNone dEx
      "global_shift" "global_scale").2.2.2.2 (by decide)⟩

/-- C5: in the per-species block, the degenerate-scale threshold is applied
to the minimum entry of the resolved per-category scale vector before any
division by the global scale (the reported minimum is that of the undivided
vector, whatever the global scale is), and the stored derived values are the
resolved vectors divided elementwise by the global scale, with 1 standing in
for a `None` global scale; concretely, global scale 2.0 with resolved
per-category scales [4.0, 6.0] stores [2.0, 3.0]. -/
theorem per_species_relative_scales (x0 g : ℚ) (xs ys : List ℚ)
    (dstats : List (String × Value)) :
    (xs.foldl min x0 < RESCALE_THRESHOLD →
      perSpeciesStep (Value.tensor (x0 :: xs)) (Value.tensor ys) (Value.float g) dstats =
        Except.error (CalErr.degenerateSpeciesScale (xs.foldl min x0))) ∧
    (¬ xs.foldl min x0 < RESCALE_THRESHOLD →
      perSpeciesStep (Value.tensor (x0 :: xs)) (Value.tensor ys) (Value.float g) dstats =
        Except.ok (Value.tensor ((x0 :: xs).map (fun x => x / g)),
          Value.tensor (ys.map (fun y => y / g)))) ∧
    (¬ xs.foldl min x0 < RESCALE_THRESHOLD →
      perSpeciesStep (Value.tensor (x0 :: xs)) (Value.tensor ys) Value.pyNone dstats =
        Except.ok (Value.tensor ((x0 :: xs).map (fun x => x / 1)),
          Value.tensor (ys.map (fun y => y / 1)))) ∧
    perSpeciesStep (Value.tensor [4, 6]) Value.pyNone (Value.float 2) [] =
      Except.ok (Value.tensor [2, 3], Value.pyNone) := by
  have hsc : set_value (Value.tensor (x0 :: xs)) "per_species_scales" dstats =
      Except.ok (Value.tensor (x0 :: xs)) :=
    set_value_not_str _ _ _ (fun _ hh => Value.noConfusion hh)
  have hsh : set_value (Value.tensor ys) "per_species_shifts" dstats =
      Except.ok (Value.tensor ys) :=
    set_value_not_str _ _ _ (fun _ hh => Value.noConfusion hh)
  refine ⟨?_, ?_, ?_, ?_⟩
  · intro hm
    simp [perSpeciesStep, hsc, hsh, checkSpeciesScales, torchMin, hm]
  · intro hm
    simp [perSpeciesStep, hsc, hsh, checkSpeciesScales, torchMin, hm, valueDiv]
  · intro hm
    simp [perSpeciesStep, hsc, hsh, checkSpeciesScales, torchMin, hm, valueDiv]
  · have h1 : set_value (Value.tensor [4, 6]) "per_species_scales"
        ([] : List (String × Value)) = Except.ok (Value.tensor [4, 6]) :=
      set_value_not_str _ _ _ (fun _ hh => Value.noConfusion hh)
    have h2 : set_value Value.pyNone "per_species_shifts"
        ([] : List (String × Value)) = Except.ok Value.pyNone :=
      set_value_not_str _ _ _ (fun _ hh => Value.noConfusion hh)
    have hdiv : ((4:ℚ)/2) = 2 := by norm_num
    have hdiv2 : ((6:ℚ)/2) = 3 := by norm_num
    simp [perSpeciesStep, h1, h2, checkSpeciesScales, torchMin, valueDiv,
      RESCALE_THRESHOLD]
    norm_num [hdiv, hdiv2]

/-- Witness for C5 at the concrete vector [4, 6] with global scale 2. -/
theorem per_species_relative_scales_witness :
    perSpeciesStep (Value.tensor (4 :: [6])) (Value.tensor [1, 2]) (Value.float 2) [] =
      Except.ok (Value.tensor ((4 :: [6]).map (fun x => x / 2)),
        Value.tensor ([1, 2].map (fun y => y / 2))) :=
  (per_species_relative_scales 4 2 [6] [1, 2] []).2.1 (by norm_num [RESCALE_THRESHOLD])

/-- C6, counterexample: the string `"dataset"` is treated as a statistic
placeholder by the requirement scan (it satisfies `startswith("dataset")`
and contributes the required name `""`), yet it is not of the form
`dataset_<name>`, refuting "placeholder exactly when of the form
`dataset_<name>`". -/
theorem placeholder_prefix_counterexample :
    isPlaceholder (Value.str "dataset") = true ∧
    requiredKeys (Value.str "dataset") (Value.float 1) Value.pyNone Value.pyNone = [""] ∧
    ¬ ∃ nm : String, "dataset" = "dataset_" ++ nm := by
  refine ⟨by decide, by decide, ?_⟩
  rintro ⟨nm, hnm⟩
  have hlen := congrArg String.length hnm
  rw [String.length_append] at hlen
  have h7 : ("dataset" : String).length = 7 := rfl
  have h8 : ("dataset_" : String).length = 8 := rfl
  rw [h7, h8] at hlen
  omega

/-- C6, amended: a slot value is treated as a statistic placeholder exactly
when it is a string satisfying `startswith("dataset")` (the underscore is
not required); the required statistic name is the string with its first 8
characters (the length of `dataset_`) removed, which for strings of the form
`dataset_<name>` is exactly `<name>`. -/
theorem placeholder_prefix_amended (v : Value) (s : String) :
    (isPlaceholder v = true ↔ ∃ t, v = Value.str t ∧ pyStartsWith t "dataset" = true) ∧
    (pyStartsWith s "dataset" = true → placeholderKey (Value.str s) = some (pyDrop s 8)) ∧
    (∀ nm : String, placeholderKey (Value.str ("dataset_" ++ nm)) = some nm) := by
  refine ⟨?_, ?_, ?_⟩
  · cases v with
    | str t => by_cases hb : pyStartsWith t "dataset" = true <;>
        simp [isPlaceholder, placeholderKey, hb]
    | pyNone => simp [isPlaceholder, placeholderKey]
    | float q => simp [isPlaceholder, placeholderKey]
    | tensor xs => simp [isPlaceholder, placeholderKey]
  · intro hs
    simp [placeholderKey, hs]
  · intro nm
    simp [placeholderKey, pyStartsWith_dataset_append, pyDrop_dataset_append]

/-- Witness for C6's amended statement at the concrete placeholder
`dataset_energy_mean`. -/
theorem placeholder_prefix_amended_witness :
    (isPlaceholder (Value.str "dataset_energy_mean") = true ↔
      ∃ t, Value.str "dataset_energy_mean" = Value.str t ∧
        pyStartsWith t "dataset" = true) ∧
    (pyStartsWith "dataset_energy_mean" "dataset" = true →
      placeholderKey (Value.str "dataset_energy_mean") =
        some (pyDrop "dataset_energy_mean" 8)) ∧
    (∀ nm : String, placeholderKey (Value.str ("dataset_" ++ nm)) = some nm) :=
  placeholder_prefix_amended (Value.str "dataset_energy_mean") "dataset_energy_mean"

end NequipTrain
